import Mathlib

/-!
Shallow embedding of the wasmer-rust-example host/guest bridge.

Host side: `src/src/main.rs` — the host functions `print_str`, `print_str2`,
`increment_shared`, `register_panic`, the shared counter, the panic-capture
slot (`Arc<Mutex<Option<PanicInfo>>>`) and the driver `main`.

Guest side: `src/wasm-sample-app/src/lib.rs` — the exports `hello_wasm` and
`fails`, the panic `hook` and the once-guarded `register_panic_hook`.

Guest linear memory is a list of byte values (`Nat`s below 256); strings cross
the boundary as (pointer, length) pairs into that memory and are decoded as
UTF-8 on the host side.
-/

/-- Whether a byte is a UTF-8 continuation byte (`10xxxxxx`). -/
def isCont (b : Nat) : Bool := 0x80 ≤ b && b < 0xC0

/-- UTF-8 encoding of a single Unicode scalar value (given as a `Nat`):
1 byte below 0x80, 2 bytes below 0x800, 3 bytes below 0x10000, 4 bytes
otherwise. This is the standard encoding Rust uses for `str` data. -/
def utf8EncodeChar (n : Nat) : List Nat :=
  if n < 0x80 then [n]
  else if n < 0x800 then [0xC0 + n / 64, 0x80 + n % 64]
  else if n < 0x10000 then
    [0xE0 + n / 4096, 0x80 + (n / 64) % 64, 0x80 + n % 64]
  else
    [0xF0 + n / 262144, 0x80 + (n / 4096) % 64, 0x80 + (n / 64) % 64, 0x80 + n % 64]

/-- UTF-8 encoding of a character sequence as a byte list. -/
def utf8Encode : List Char → List Nat
  | [] => []
  | c :: cs => utf8EncodeChar c.toNat ++ utf8Encode cs

/-- Code point assembled from a 2-byte UTF-8 sequence. -/
def cpTwo (b0 b1 : Nat) : Nat := (b0 - 0xC0) * 64 + (b1 - 0x80)

/-- Code point assembled from a 3-byte UTF-8 sequence. -/
def cpThree (b0 b1 b2 : Nat) : Nat :=
  (b0 - 0xE0) * 4096 + (b1 - 0x80) * 64 + (b2 - 0x80)

/-- Code point assembled from a 4-byte UTF-8 sequence. -/
def cpFour (b0 b1 b2 b3 : Nat) : Nat :=
  (b0 - 0xF0) * 262144 + (b1 - 0x80) * 4096 + (b2 - 0x80) * 64 + (b3 - 0x80)

/-- Well-formedness of a 2-byte sequence whose lead is below 0xE0: lead at
least 0xC2 (0x80-0xC1 leads are stray continuations or overlong) and a
continuation byte. -/
def okTwo (b0 b1 : Nat) : Prop := 0xC2 ≤ b0 ∧ isCont b1 = true

/-- Well-formedness of a 3-byte sequence: two continuation bytes, no overlong
encoding (code point at least 0x800), and no surrogate code point. -/
def okThree (b0 b1 b2 : Nat) : Prop :=
  isCont b1 = true ∧ isCont b2 = true ∧ 0x800 ≤ cpThree b0 b1 b2 ∧
    (cpThree b0 b1 b2 < 0xD800 ∨ 0xE000 ≤ cpThree b0 b1 b2)

/-- Well-formedness of a 4-byte sequence: three continuation bytes and a code
point in [0x10000, 0x10FFFF] (no overlong encoding, nothing beyond the last
Unicode scalar; leads of 0xF5 and above always fail the upper bound). -/
def okFour (b0 b1 b2 b3 : Nat) : Prop :=
  isCont b1 = true ∧ isCont b2 = true ∧ isCont b3 = true ∧
    0x10000 ≤ cpFour b0 b1 b2 b3 ∧ cpFour b0 b1 b2 b3 < 0x110000

instance : ∀ b0 b1, Decidable (okTwo b0 b1) := fun _ _ => by
  unfold okTwo; infer_instance

instance : ∀ b0 b1 b2, Decidable (okThree b0 b1 b2) := fun _ _ _ => by
  unfold okThree; infer_instance

instance : ∀ b0 b1 b2 b3, Decidable (okFour b0 b1 b2 b3) := fun _ _ _ _ => by
  unfold okFour; infer_instance

/-- One unfolding of UTF-8 decoding: decodes the first scalar's byte sequence
and hands the remaining bytes to `next`; `none` on any ill-formed sequence
(stray continuation byte, truncated sequence, overlong encoding, surrogate
code point, or code point above 0x10FFFF), matching Rust's `str::from_utf8`
validity. -/
def utf8DecodeStep (next : List Nat → Option (List Char)) : List Nat → Option (List Char)
  | [] => some []
  | b0 :: rest =>
    if b0 < 0x80 then (next rest).map (Char.ofNat b0 :: ·)
    else if b0 < 0xE0 then
      match rest with
      | b1 :: rest2 =>
        if okTwo b0 b1 then (next rest2).map (Char.ofNat (cpTwo b0 b1) :: ·) else none
      | [] => none
    else if b0 < 0xF0 then
      match rest with
      | b1 :: b2 :: rest3 =>
        if okThree b0 b1 b2 then (next rest3).map (Char.ofNat (cpThree b0 b1 b2) :: ·)
        else none
      | _ => none
    else
      match rest with
      | b1 :: b2 :: b3 :: rest4 =>
        if okFour b0 b1 b2 b3 then (next rest4).map (Char.ofNat (cpFour b0 b1 b2 b3) :: ·)
        else none
      | _ => none

/-- Fuel-indexed iteration of `utf8DecodeStep`; each scalar consumes at least
one byte, so fuel equal to the byte count always suffices. -/
def utf8DecodeAux : Nat → List Nat → Option (List Char)
  | 0 => fun l => match l with | [] => some [] | _ :: _ => none
  | fuel + 1 => utf8DecodeStep (utf8DecodeAux fuel)

/-- UTF-8 decoding of a byte list into characters; `none` exactly on the byte
lists Rust's `str::from_utf8` rejects. -/
def utf8Decode (l : List Nat) : Option (List Char) := utf8DecodeAux l.length l

/-- Memory-decode failures of the Linear Memory View. -/
inductive DecodeError
  | OutOfBounds
  | InvalidUtf8
deriving DecidableEq, Repr

/-- Modelled from the spec: the Linear Memory View's
`decode_utf8(memory, pointer) -> Result<String, DecodeError>`. The view itself
is `wasmer_runtime::WasmPtr::get_utf8_string`, an external dependency whose
code is not part of this repository; per the spec it validates that the range
lies within the memory's current byte length (`OutOfBounds` otherwise) and
that the bytes are valid UTF-8 (`InvalidUtf8` otherwise), with no side
effects. Failure is a returned value, never an abort. -/
def decode_utf8 (memory : List Nat) (ptr len : Nat) : Except DecodeError String :=
  if memory.length < ptr + len then .error .OutOfBounds
  else
    match utf8Decode ((memory.drop ptr).take len) with
    | some cs => .ok (String.mk cs)
    | none => .error .InvalidUtf8

/-- Host-side `PanicLocation` (main.rs:13-18): file path plus `u32` line and
column (modelled as `Nat`; the guest's real line/column numbers are far below
2^32, so wrap-around never occurs). -/
structure PanicLocation where
  file : String
  line : Nat
  column : Nat
deriving DecidableEq, Repr

/-- Host-side `PanicInfo` (main.rs:20-27): a panic caught inside the wasm
module — the message, and the location if available. -/
structure PanicInfo where
  message : String
  location : Option PanicLocation
deriving DecidableEq, Repr

/-- Host state shared with the host functions (main.rs:43,67): the counter
behind `shared_data: Arc<Mutex<usize>>` and the panic-capture slot behind
`panic_info: Arc<Mutex<Option<PanicInfo>>>`. The mutexes serialize access;
in this single-driver model each host-function body is one atomic step. -/
structure HostState where
  shared : Nat
  panic_info : Option PanicInfo
deriving DecidableEq, Repr

/-- Host-observable side effects: a `println!` line, or the shared counter
transitioning to a new value. -/
inductive Event
  | print (s : String)
  | counter (n : Nat)
deriving DecidableEq, Repr

/-- Host function `print_str` (main.rs:146-162): decodes a (ptr, len) string
from guest memory and prints it. The Rust body calls `.unwrap()` on the decode
result, so a failed decode panics inside the host function; `none` models that
abort, `some` the normal return with the emitted print event. -/
def print_str (memory : List Nat) (ptr len : Nat) (s : HostState) :
    Option (HostState × List Event) :=
  match decode_utf8 memory ptr len with
  | .ok str => some (s, [.print str])
  | .error _ => none

/-- Host function `print_str2` (main.rs:47-57): decodes a (ptr, len) string,
reads the shared counter under its lock, and prints `"{counter}: {string}"`.
As with `print_str`, the `.unwrap()` on a failed decode is modelled as `none`. -/
def print_str2 (memory : List Nat) (ptr len : Nat) (s : HostState) :
    Option (HostState × List Event) :=
  match decode_utf8 memory ptr len with
  | .ok str => some (s, [.print (toString s.shared ++ ": " ++ str)])
  | .error _ => none

/-- Host function `increment_shared` (main.rs:61-65): increments the shared
counter under its lock. Cannot fail; emits the counter's new value as an
observable transition. -/
def increment_shared (s : HostState) : HostState × List Event :=
  ({ s with shared := s.shared + 1 }, [.counter (s.shared + 1)])

/-- Host function `register_panic` (main.rs:69-91): decodes the message and
the file strings from guest memory (each `.unwrap()` modelled as `none` on
failure) and stores `Some(PanicInfo { message, location: Some(PanicLocation
{ file, line, column }) })` into the panic-capture slot, overwriting whatever
was there. Note the source wraps the location in `Some` unconditionally — it
never checks the `file_ptr == 0 && file_len == 0` sentinel. -/
def register_panic (memory : List Nat)
    (msg_ptr msg_len file_ptr file_len line column : Nat)
    (s : HostState) : Option HostState :=
  match decode_utf8 memory msg_ptr msg_len, decode_utf8 memory file_ptr file_len with
  | .ok msg, .ok file =>
    some { s with
      panic_info := some
        { message := msg
          location := some { file := file, line := line, column := column } } }
  | _, _ => none

/-- Channel write (main.rs:90): `(*pi.lock().unwrap()) = Some(panic_info)` —
stores the new record regardless of the previous contents. -/
def channelSet (info : PanicInfo) (_c : Option PanicInfo) : Option PanicInfo :=
  some info

/-- Channel reset (main.rs:126): `(*panic_info.lock().unwrap()) = None`. -/
def channelReset (_c : Option PanicInfo) : Option PanicInfo := none

/-- Channel read (main.rs:129): `match *panic_info.lock().unwrap() { ... }` —
returns the slot's contents and releases the lock with the slot unchanged
(a peek: the source never clears the slot when reading it). The pair is
(value read, slot contents afterwards). -/
def channelReadStep (c : Option PanicInfo) : Option PanicInfo × Option PanicInfo :=
  (c, c)

/-- Guest-side process state (lib.rs:93-99): whether the `Once`-guarded panic
hook has been installed, and how many times `std::panic::set_hook` actually
ran (the body of `call_once`). -/
structure GuestState where
  hookInstalled : Bool
  hookInstallCount : Nat
deriving DecidableEq, Repr

/-- Guest `register_panic_hook` (lib.rs:93-99): `SET_HOOK.call_once(...)` runs
`std::panic::set_hook(Box::new(hook))` the first time only; later calls are
no-ops. -/
def register_panic_hook (g : GuestState) : GuestState :=
  if g.hookInstalled then g
  else { hookInstalled := true, hookInstallCount := g.hookInstallCount + 1 }

/-- Payload of a guest panic as the hook inspects it (lib.rs:57-62): a
`String`, a `&'static str`, or some non-textual type. -/
inductive PanicPayload
  | ofString (s : String)
  | staticStr (s : String)
  | other
deriving DecidableEq, Repr

/-- Message extraction of the hook (lib.rs:57-62):
`payload().downcast_ref::<String>() .or_else(downcast_ref::<&'static str>)
.unwrap_or("")` — the text when the payload is textual, `""` otherwise. -/
def payloadMessage : PanicPayload → String
  | .ofString s => s
  | .staticStr s => s
  | .other => ""

/-- One invocation of the host import `register_panic` as marshalled by the
guest: the guest memory image the pointers refer to, plus the six scalar
arguments of the ABI. -/
structure RegisterPanicCall where
  memory : List Nat
  msg_ptr : Nat
  msg_len : Nat
  file_ptr : Nat
  file_len : Nat
  line : Nat
  column : Nat
deriving DecidableEq, Repr

/-- Guest panic hook `hook` (lib.rs:56-91): extracts the message and optional
location from the panic info and calls `register_panic` with raw
pointer+length pairs plus line and column. With a location present it passes
the message and file bytes and the real line/column; with no location it
passes a null file pointer and zero length/line/column (lib.rs:81-88). The
strings live in guest linear memory; the model lays them out in a fresh image
with one pad byte at address 0, since Rust string data never sits at the null
address. -/
def hook (p : PanicPayload) (location : Option PanicLocation) : RegisterPanicCall :=
  let msg := utf8Encode (payloadMessage p).data
  match location with
  | some loc =>
    let file := utf8Encode loc.file.data
    { memory := 0 :: (msg ++ file)
      msg_ptr := 1
      msg_len := msg.length
      file_ptr := msg.length + 1
      file_len := file.length
      line := loc.line
      column := loc.column }
  | none =>
    { memory := 0 :: msg
      msg_ptr := 1
      msg_len := msg.length
      file_ptr := 0
      file_len := 0
      line := 0
      column := 0 }

/-- Delivery of a marshalled `register_panic` call to the host function
(main.rs:69-91 receiving the scalars of lib.rs:72-88). -/
def deliver (call : RegisterPanicCall) (s : HostState) : Option HostState :=
  register_panic call.memory call.msg_ptr call.msg_len call.file_ptr
    call.file_len call.line call.column s

/-- Engine-level result of a guest export call: normal return, or a trap
(the generic `Err` wasmer hands back when the guest aborts). -/
inductive CallResult
  | ok
  | trapped
deriving DecidableEq, Repr

/-- Payload of the `panic!("oh no")` in `fails` (lib.rs:53): a format string
with no arguments panics with a `&'static str` payload. -/
def failsPayload : PanicPayload := .staticStr "oh no"

/-- Panic site of `fails` (lib.rs:53, column of the `panic!` token): the
location `std::panic::Location` reports for that panic. -/
def failsLocation : PanicLocation :=
  { file := "src/lib.rs", line := 53, column := 5 }

/-- Guest export `fails` (lib.rs:50-54): installs the panic hook through the
once guard, then `panic!("oh no")`. The std panic machinery runs the installed
hook synchronously (which marshals one `register_panic` call); with no custom
hook installed the default hook would make no such call. The wasm panic then
aborts, so the engine always reports a trap. Returns (guest state after the
call, the `register_panic` call the hook made if any, engine result). -/
def fails (g : GuestState) : GuestState × Option RegisterPanicCall × CallResult :=
  let g' := register_panic_hook g
  (g',
    if g'.hookInstalled then some (hook failsPayload (some failsLocation)) else none,
    .trapped)

/-- Byte image of the static `HELLO: &'static str = "Hello, World!"`
(lib.rs:22) in guest linear memory, with one pad byte at address 0. -/
def helloMemory : List Nat := 0 :: utf8Encode "Hello, World!".data

/-- Byte length of `HELLO` (what `HELLO.len()` passes across the boundary). -/
def helloLen : Nat := (utf8Encode "Hello, World!".data).length

/-- Guest export `hello_wasm` (lib.rs:27-37): calls `print_str(HELLO)`,
`print_str2(HELLO)`, `increment_shared()` twice, `print_str2(HELLO)`. Each
imported function runs synchronously against the host state; `none` models a host
function aborting on a failed decode. Returns the final host state and the
concatenated observable events. -/
def hello_wasm (s : HostState) : Option (HostState × List Event) := do
  let (s1, e1) ← print_str helloMemory 1 helloLen s
  let (s2, e2) ← print_str2 helloMemory 1 helloLen s1
  let (s3, e3) := increment_shared s2
  let (s4, e4) := increment_shared s3
  let (s5, e5) ← print_str2 helloMemory 1 helloLen s4
  some (s5, e1 ++ e2 ++ e3 ++ e4 ++ e5)

/-- Outcome of one iteration of the `fails` loop body (main.rs:127-137):
either the loop goes on to the next iteration carrying what it read from the
panic-capture slot, or the host itself panics. -/
inductive LoopOutcome
  | keepGoing (captured : Option PanicInfo)
  | hostPanic (msg : String)
deriving DecidableEq, Repr

/-- Result handling of one `instance.call("fails", &[])` (main.rs:127-137):
`Ok(_)` makes the host panic with a fixed message; `Err(_)` reads the
panic-capture slot (a peek) and continues the loop. -/
def handleFailsResult : CallResult → Option PanicInfo → LoopOutcome
  | .ok, _ => .hostPanic "calling 'fails' should have returned an error"
  | .trapped, channel => .keepGoing ((channelReadStep channel).1)

/-- Combined host-and-guest state while `main` runs. -/
structure SystemState where
  host : HostState
  guest : GuestState
deriving DecidableEq, Repr

/-- Record of one iteration of the `fails` loop: the channel contents
immediately before `instance.call("fails", &[])`, the engine-level result,
and the iteration's outcome. -/
structure AttemptRecord where
  channelBeforeCall : Option PanicInfo
  engineResult : CallResult
  outcome : LoopOutcome
deriving DecidableEq, Repr

/-- One iteration of the loop at main.rs:123-138: reset the panic-capture
slot (line 126), call `fails` (line 127) — during which the guest hook may
deliver a `register_panic` call — then handle the result (lines 127-137).
`none` models the host aborting (a host-function `.unwrap()` panic). -/
def failsAttempt (st : SystemState) : Option (SystemState × AttemptRecord) := do
  let host0 := { st.host with panic_info := channelReset st.host.panic_info }
  let (g', call?, res) := fails st.guest
  let host1 ←
    match call? with
    | some call => deliver call host0
    | none => some host0
  some (⟨host1, g'⟩,
    { channelBeforeCall := host0.panic_info
      engineResult := res
      outcome := handleFailsResult res host1.panic_info })

/-- Runs `n` iterations of the `fails` loop, collecting each iteration's
record. -/
def runFails : Nat → SystemState → Option (SystemState × List AttemptRecord)
  | 0, st => some (st, [])
  | n + 1, st => do
    let (st1, att) ← failsAttempt st
    let (stF, atts) ← runFails n st1
    some (stF, att :: atts)

/-- Initial state of `main` (main.rs:43,67): counter 0, empty panic-capture
slot, guest hook not yet installed. -/
def initialState : SystemState :=
  ⟨{ shared := 0, panic_info := none }, { hookInstalled := false, hookInstallCount := 0 }⟩

/-- Result of a whole run of `main` (main.rs:41-141): the channel contents
immediately before each of the five guest export calls (first `hello_wasm`,
then four `fails`), the print/counter events of `hello_wasm`, the final
state, and the four loop-attempt records. -/
structure MainResult where
  preCallChannels : List (Option PanicInfo)
  helloEvents : List Event
  finalState : SystemState
  attempts : List AttemptRecord
deriving DecidableEq, Repr

/-- Straight-line model of `main` (main.rs:41-141): instantiate (state
`initialState`), call `hello_wasm` (line 121), then run the four-iteration
`fails` loop (lines 123-138). `none` models the host process aborting. -/
def mainRun : Option MainResult := do
  let st := initialState
  let pre0 := st.host.panic_info
  let (h1, evs) ← hello_wasm st.host
  let (stF, atts) ← runFails 4 ⟨h1, st.guest⟩
  some
    { preCallChannels := pre0 :: atts.map (·.channelBeforeCall)
      helloEvents := evs
      finalState := stF
      attempts := atts }

/-- The `PanicInfo` every successful `fails` attempt captures. -/
def failsPanicInfo : PanicInfo :=
  { message := "oh no", location := some failsLocation }

/-- The record every one of the four `fails` attempts of `main` produces:
channel empty at call time, engine-level trap, loop continues carrying the
captured diagnostic. -/
def failsAttemptRecord : AttemptRecord :=
  { channelBeforeCall := none
    engineResult := .trapped
    outcome := .keepGoing (some failsPanicInfo) }

/-- What `register_panic` actually stores when the guest hook reports "no
location" through the `file_ptr == 0 && file_len == 0` sentinel: a present
location with empty file and zero line/column, not an absent one. -/
def sentinelStoredInfo : PanicInfo :=
  { message := "oh no"
    location := some { file := "", line := 0, column := 0 } }

/-! ### Properties of the UTF-8 codec model -/

theorem utf8DecodeStep_congr (next1 next2 : List Nat → Option (List Char))
    (l : List Nat) (h : ∀ l', l'.length < l.length → next1 l' = next2 l') :
    utf8DecodeStep next1 l = utf8DecodeStep next2 l := by
  match l with
  | [] => rfl
  | b0 :: rest =>
    simp only [utf8DecodeStep]
    have h0 : next1 rest = next2 rest := h rest (by simp)
    match rest with
    | [] => simp [h0]
    | b1 :: rest2 =>
      have h1 : next1 rest2 = next2 rest2 :=
        h rest2 (by simp only [List.length_cons]; omega)
      match rest2 with
      | [] => simp [h0, h1]
      | b2 :: rest3 =>
        have h2 : next1 rest3 = next2 rest3 :=
          h rest3 (by simp only [List.length_cons]; omega)
        match rest3 with
        | [] => simp [h0, h1, h2]
        | b3 :: rest4 =>
          have h3 : next1 rest4 = next2 rest4 :=
            h rest4 (by simp only [List.length_cons]; omega)
          simp [h0, h1, h2, h3]

theorem utf8DecodeAux_fuel :
    ∀ (f1 f2 : Nat) (l : List Nat), l.length ≤ f1 → l.length ≤ f2 →
      utf8DecodeAux f1 l = utf8DecodeAux f2 l := by
  intro f1
  induction f1 with
  | zero =>
    intro f2 l hl _
    have : l = [] := List.length_eq_zero.mp (Nat.le_zero.mp hl)
    subst this
    match f2 with
    | 0 => rfl
    | _ + 1 => rfl
  | succ f ih =>
    intro f2 l h1 h2
    match f2, l with
    | 0, l =>
      have : l = [] := List.length_eq_zero.mp (Nat.le_zero.mp h2)
      subst this; rfl
    | g + 1, [] => rfl
    | g + 1, b0 :: rest =>
      show utf8DecodeStep (utf8DecodeAux f) (b0 :: rest) =
        utf8DecodeStep (utf8DecodeAux g) (b0 :: rest)
      apply utf8DecodeStep_congr
      intro l' hl'
      simp only [List.length_cons] at hl' h1 h2
      exact ih g l' (by omega) (by omega)

theorem utf8DecodeAux_of_le (fuel : Nat) (l : List Nat) (h : l.length ≤ fuel) :
    utf8DecodeAux fuel l = utf8Decode l :=
  utf8DecodeAux_fuel fuel l.length l h (Nat.le_refl _)

/-- Decoding a character's UTF-8 bytes followed by anything yields that
character followed by the decoding of the remainder. -/
theorem utf8Decode_encodeChar_append (c : Char) (l : List Nat) :
    utf8Decode (utf8EncodeChar c.toNat ++ l) = (utf8Decode l).map (c :: ·) := by
  have hv : c.toNat < 0xD800 ∨ 0xE000 ≤ c.toNat ∧ c.toNat < 0x110000 := c.valid
  have hofn : Char.ofNat c.toNat = c := Char.ofNat_toNat c
  set n := c.toNat with hn
  by_cases h1 : n < 0x80
  · rw [show utf8EncodeChar n = [n] from by rw [utf8EncodeChar, if_pos h1]]
    rw [List.cons_append, List.nil_append]
    show utf8DecodeStep (utf8DecodeAux l.length) (n :: l) = _
    simp only [utf8DecodeStep]
    rw [if_pos h1, hofn]
    rfl
  · by_cases h2 : n < 0x800
    · rw [show utf8EncodeChar n = [0xC0 + n / 64, 0x80 + n % 64] from by
        rw [utf8EncodeChar, if_neg h1, if_pos h2]]
      rw [List.cons_append, List.cons_append, List.nil_append]
      show utf8DecodeStep (utf8DecodeAux (l.length + 1))
        ((0xC0 + n / 64) :: (0x80 + n % 64) :: l) = _
      simp only [utf8DecodeStep]
      rw [if_neg (by omega), if_pos (by omega)]
      rw [if_pos (show okTwo (0xC0 + n / 64) (0x80 + n % 64) from
        ⟨by omega, by simp [isCont]; omega⟩)]
      rw [utf8DecodeAux_of_le (l.length + 1) l (by omega)]
      rw [show cpTwo (0xC0 + n / 64) (0x80 + n % 64) = n from by unfold cpTwo; omega]
      rw [hofn]
    · by_cases h3 : n < 0x10000
      · rw [show utf8EncodeChar n =
            [0xE0 + n / 4096, 0x80 + (n / 64) % 64, 0x80 + n % 64] from by
          rw [utf8EncodeChar, if_neg h1, if_neg h2, if_pos h3]]
        rw [List.cons_append, List.cons_append, List.cons_append, List.nil_append]
        show utf8DecodeStep (utf8DecodeAux (l.length + 2))
          ((0xE0 + n / 4096) :: (0x80 + (n / 64) % 64) :: (0x80 + n % 64) :: l) = _
        simp only [utf8DecodeStep]
        rw [if_neg (by omega), if_neg (by omega), if_pos (by omega)]
        rw [if_pos (show okThree (0xE0 + n / 4096) (0x80 + (n / 64) % 64)
            (0x80 + n % 64) from
          ⟨by simp [isCont]; omega, by simp [isCont]; omega,
            by unfold cpThree; omega, by unfold cpThree; omega⟩)]
        rw [utf8DecodeAux_of_le (l.length + 2) l (by omega)]
        rw [show cpThree (0xE0 + n / 4096) (0x80 + (n / 64) % 64) (0x80 + n % 64) = n
          from by unfold cpThree; omega]
        rw [hofn]
      · rw [show utf8EncodeChar n =
            [0xF0 + n / 262144, 0x80 + (n / 4096) % 64, 0x80 + (n / 64) % 64,
              0x80 + n % 64] from by
          rw [utf8EncodeChar, if_neg h1, if_neg h2, if_neg h3]]
        rw [List.cons_append, List.cons_append, List.cons_append, List.cons_append,
          List.nil_append]
        show utf8DecodeStep (utf8DecodeAux (l.length + 3))
          ((0xF0 + n / 262144) :: (0x80 + (n / 4096) % 64) :: (0x80 + (n / 64) % 64) ::
            (0x80 + n % 64) :: l) = _
        simp only [utf8DecodeStep]
        rw [if_neg (by omega), if_neg (by omega), if_neg (by omega)]
        rw [if_pos (show okFour (0xF0 + n / 262144) (0x80 + (n / 4096) % 64)
            (0x80 + (n / 64) % 64) (0x80 + n % 64) from
          ⟨by simp [isCont]; omega, by simp [isCont]; omega, by simp [isCont]; omega,
            by unfold cpFour; omega, by unfold cpFour; omega⟩)]
        rw [utf8DecodeAux_of_le (l.length + 3) l (by omega)]
        rw [show cpFour (0xF0 + n / 262144) (0x80 + (n / 4096) % 64)
            (0x80 + (n / 64) % 64) (0x80 + n % 64) = n from by unfold cpFour; omega]
        rw [hofn]

theorem utf8Decode_encode_append (cs : List Char) (l : List Nat) :
    utf8Decode (utf8Encode cs ++ l) = (utf8Decode l).map (cs ++ ·) := by
  induction cs with
  | nil => simp [utf8Encode]
  | cons c cs ih =>
    rw [show utf8Encode (c :: cs) = utf8EncodeChar c.toNat ++ utf8Encode cs from rfl]
    rw [List.append_assoc, utf8Decode_encodeChar_append, ih]
    rw [Option.map_map]
    rfl

/-- Round trip: decoding the UTF-8 encoding of any character sequence
recovers exactly that sequence. -/
theorem utf8Decode_encode (cs : List Char) : utf8Decode (utf8Encode cs) = some cs := by
  have := utf8Decode_encode_append cs []
  simpa [utf8Decode, utf8DecodeAux] using this

/-- Decoding a string's byte image placed in memory between arbitrary
surrounding bytes recovers the string. -/
theorem decode_utf8_encode_at (pre : List Nat) (s : String) (post : List Nat) :
    decode_utf8 (pre ++ (utf8Encode s.data ++ post)) pre.length
      (utf8Encode s.data).length = .ok s := by
  unfold decode_utf8
  rw [if_neg (by simp only [List.length_append]; omega)]
  rw [List.drop_left, List.take_left, utf8Decode_encode]

/-! ### The claims -/

/-- C1: the claim says an invocation of `register_panic` with `file_ptr == 0`
and `file_len == 0` stores a `PanicInfo` with `location = None`. The code does
not: main.rs:83 wraps the location in `Some` unconditionally, so the sentinel
call of the guest hook's no-location branch (lib.rs:81-88) is stored as a
present location with an empty file name and zero line/column. This theorem
evaluates the code at that failing input. -/
theorem register_panic_sentinel_stores_zero_location :
    (hook failsPayload none).file_ptr = 0 ∧ (hook failsPayload none).file_len = 0 ∧
    deliver (hook failsPayload none) { shared := 0, panic_info := none } =
      some { shared := 0, panic_info := some sentinelStoredInfo } ∧
    sentinelStoredInfo.location ≠ none ∧
    sentinelStoredInfo.location = some { file := "", line := 0, column := 0 } := by
  refine ⟨rfl, rfl, by decide, by decide, rfl⟩

/-- C2: in the driver's run, each of the four `fails` calls (with the channel
reset before each) traps at the engine level, and every one of the four
attempts captures a `PanicInfo` with message "oh no" and a present location
with non-empty file, line > 0 and column > 0 — no attempt loses its
diagnostic to cross-call leakage. -/
theorem fails_four_attempts_all_capture_oh_no :
    mainRun.map (·.attempts) = some (List.replicate 4 failsAttemptRecord) ∧
    failsAttemptRecord.channelBeforeCall = none ∧
    failsAttemptRecord.engineResult = .trapped ∧
    failsAttemptRecord.outcome = .keepGoing (some failsPanicInfo) ∧
    failsPanicInfo.message = "oh no" ∧
    failsPanicInfo.location = some failsLocation ∧
    failsLocation.file ≠ "" ∧ 0 < failsLocation.line ∧ 0 < failsLocation.column := by
  refine ⟨by decide, rfl, rfl, rfl, rfl, rfl, by decide, by decide, by decide⟩

/-- C3 (counterexample): the claim says a second take() with no intervening
set() returns absent. The code's only channel read (main.rs:129) is a peek
that leaves the slot unchanged, so after `set x` a second read still returns
`some x`, not absent. -/
theorem channel_second_read_after_set_not_absent :
    (channelReadStep (channelReadStep (channelSet failsPanicInfo none)).2).1 =
      some failsPanicInfo ∧
    some failsPanicInfo ≠ (none : Option PanicInfo) := by
  exact ⟨rfl, by simp⟩

/-- C3 (amended): the code reads the channel without clearing it — after
`set(x)` every read returns `x`, a second read included; the slot becomes
absent only through the explicit reset (main.rs:126), after which a read
returns absent. -/
theorem channel_read_peeks_until_reset : ∀ (x : PanicInfo) (c : Option PanicInfo),
    (channelReadStep (channelSet x c)).1 = some x ∧
    (channelReadStep (channelReadStep (channelSet x c)).2).1 = some x ∧
    (channelReadStep (channelReset (channelReadStep (channelSet x c)).2)).1 = none :=
  fun _ _ => ⟨rfl, rfl, rfl⟩

/-- C4: in the driver's run the panic-capture channel is empty immediately
before every one of the five guest export invocations (`hello_wasm` included:
the slot is created empty and the loop resets it before each `fails` call),
so a stale record is never attributed to the current call; and after clearing
the channel, a guest call that does not fail (`hello_wasm`) leaves a read
returning absent. -/
theorem channel_empty_before_every_guest_call :
    mainRun.map (·.preCallChannels) = some (List.replicate 5 none) ∧
    ∀ (n : Nat) (c : Option PanicInfo),
      ∃ st evs, hello_wasm { shared := n, panic_info := channelReset c } =
        some (st, evs) ∧ (channelReadStep st.panic_info).1 = none := by
  refine ⟨by decide, ?_⟩
  intro n c
  exact ⟨_, _, rfl, rfl⟩

/-- C5: decoding a byte range that exceeds the memory's byte length fails
with `OutOfBounds`; an in-bounds range that is not valid UTF-8 fails with
`InvalidUtf8`; an in-bounds range holding a valid encoding decodes to its
text; and every failure is one of those two `DecodeError` values returned as
a result — the decode is a total function, it never aborts the host. -/
theorem decode_utf8_error_contract : ∀ (memory : List Nat) (ptr len : Nat),
    (memory.length < ptr + len → decode_utf8 memory ptr len = .error .OutOfBounds) ∧
    (¬ memory.length < ptr + len →
      utf8Decode ((memory.drop ptr).take len) = none →
      decode_utf8 memory ptr len = .error .InvalidUtf8) ∧
    (∀ cs, ¬ memory.length < ptr + len → (memory.drop ptr).take len = utf8Encode cs →
      decode_utf8 memory ptr len = .ok (String.mk cs)) ∧
    (∀ e, decode_utf8 memory ptr len = .error e →
      e = .OutOfBounds ∨ e = .InvalidUtf8) := by
  intro memory ptr len
  refine ⟨?_, ?_, ?_, ?_⟩
  · intro h
    unfold decode_utf8
    rw [if_pos h]
  · intro h hu
    unfold decode_utf8
    rw [if_neg h, hu]
  · intro cs h hcs
    unfold decode_utf8
    rw [if_neg h, hcs, utf8Decode_encode]
  · intro e he
    unfold decode_utf8 at he
    by_cases h : memory.length < ptr + len
    · rw [if_pos h] at he
      cases he
      exact Or.inl rfl
    · rw [if_neg h] at he
      cases hu : utf8Decode ((memory.drop ptr).take len) <;> rw [hu] at he
      · cases he
        exact Or.inr rfl
      · exact Except.noConfusion he

/-- C6: calling `hello_wasm` on the driver's starting host state (counter 0,
any channel contents) succeeds and produces exactly, in order: print
"Hello, World!", print "0: Hello, World!", counter becomes 1, counter becomes
2, print "2: Hello, World!". -/
theorem hello_wasm_succeeds_with_ordered_events : ∀ c : Option PanicInfo,
    hello_wasm { shared := 0, panic_info := c } =
      some ({ shared := 2, panic_info := c },
        [.print "Hello, World!", .print "0: Hello, World!",
         .counter 1, .counter 2, .print "2: Hello, World!"]) := by
  intro c
  have hd : decode_utf8 helloMemory 1 helloLen = .ok "Hello, World!" := rfl
  simp [hello_wasm, print_str, print_str2, increment_shared, hd]
  exact ⟨rfl, rfl⟩

/-- C7: the channel holds at most one record (its state is an `Option`, and
whenever `register_panic` succeeds the slot holds exactly one record), and
`register_panic` overwrites whatever was pending: the stored contents do not
depend on the slot's previous contents (last-write-wins). -/
theorem register_panic_last_write_wins : ∀ (mem : List Nat)
    (mp ml fp fl ln col : Nat) (st : HostState) (prev : Option PanicInfo),
    (register_panic mem mp ml fp fl ln col
        { st with panic_info := prev }).map (·.panic_info) =
      (register_panic mem mp ml fp fl ln col st).map (·.panic_info) ∧
    ∀ st', register_panic mem mp ml fp fl ln col st = some st' →
      ∃ pi, st'.panic_info = some pi := by
  intro mem mp ml fp fl ln col st prev
  constructor
  · unfold register_panic
    cases decode_utf8 mem mp ml <;> cases decode_utf8 mem fp fl <;> simp
  · intro st' h
    unfold register_panic at h
    cases hm : decode_utf8 mem mp ml <;> rw [hm] at h
    · exact Option.noConfusion h
    · cases hf : decode_utf8 mem fp fl <;> rw [hf] at h
      · exact Option.noConfusion h
      · cases h
        exact ⟨_, rfl⟩

/-- C8: hook installation is idempotent — re-running `register_panic_hook` on
any state changes nothing more, the hook is installed after any call, each
`fails` invocation goes through the same once-guard, and after any positive
number of installation attempts starting from the fresh guest state the hook
has been installed exactly once. -/
theorem register_panic_hook_installs_exactly_once :
    (∀ g, register_panic_hook (register_panic_hook g) = register_panic_hook g) ∧
    (∀ g, (register_panic_hook g).hookInstalled = true) ∧
    (∀ g, (fails g).1 = register_panic_hook g) ∧
    (∀ n : Nat, register_panic_hook^[n + 1]
        { hookInstalled := false, hookInstallCount := 0 } =
      { hookInstalled := true, hookInstallCount := 1 }) := by
  refine ⟨?_, ?_, fun g => rfl, ?_⟩
  · intro g
    unfold register_panic_hook
    by_cases h : g.hookInstalled <;> simp [h]
  · intro g
    unfold register_panic_hook
    by_cases h : g.hookInstalled <;> simp [h]
  · intro n
    induction n with
    | zero => rfl
    | succ m ih =>
      rw [Function.iterate_succ_apply', ih]
      rfl

/-- C9: for every guest panic the hook handles — any payload, with or without
a location — the delivered `register_panic` call stores a record whose message
is the textual payload, and a non-textual payload is forwarded as the empty
string rather than failing. -/
theorem hook_forwards_message_or_empty :
    ∀ (p : PanicPayload) (loc : Option PanicLocation) (st : HostState),
      payloadMessage .other = "" ∧
      (∀ s, payloadMessage (.ofString s) = s ∧ payloadMessage (.staticStr s) = s) ∧
      ∃ st', deliver (hook p loc) st = some st' ∧
        ∃ pi, st'.panic_info = some pi ∧ pi.message = payloadMessage p := by
  intro p loc st
  refine ⟨rfl, fun s => ⟨rfl, rfl⟩, ?_⟩
  cases loc with
  | none =>
    have hmsg : decode_utf8 (0 :: utf8Encode (payloadMessage p).data) 1
        (utf8Encode (payloadMessage p).data).length = .ok (payloadMessage p) := by
      have := decode_utf8_encode_at [0] (payloadMessage p) []
      simpa using this
    have hfile : decode_utf8 (0 :: utf8Encode (payloadMessage p).data) 0 0 =
        .ok "" := by
      unfold decode_utf8
      rw [if_neg (by omega)]
      rfl
    show ∃ st', register_panic (0 :: utf8Encode (payloadMessage p).data) 1
        (utf8Encode (payloadMessage p).data).length 0 0 0 0 st = some st' ∧ _
    unfold register_panic
    rw [hmsg, hfile]
    exact ⟨_, rfl, _, rfl, rfl⟩
  | some l =>
    have hmsg : decode_utf8
        (0 :: (utf8Encode (payloadMessage p).data ++ utf8Encode l.file.data)) 1
        (utf8Encode (payloadMessage p).data).length = .ok (payloadMessage p) := by
      have := decode_utf8_encode_at [0] (payloadMessage p) (utf8Encode l.file.data)
      simpa using this
    have hfile : decode_utf8
        (0 :: (utf8Encode (payloadMessage p).data ++ utf8Encode l.file.data))
        ((utf8Encode (payloadMessage p).data).length + 1)
        (utf8Encode l.file.data).length = .ok l.file := by
      have := decode_utf8_encode_at (0 :: utf8Encode (payloadMessage p).data)
        l.file []
      simpa using this
    show ∃ st', register_panic
        (0 :: (utf8Encode (payloadMessage p).data ++ utf8Encode l.file.data)) 1
        (utf8Encode (payloadMessage p).data).length
        ((utf8Encode (payloadMessage p).data).length + 1)
        (utf8Encode l.file.data).length l.line l.column st = some st' ∧ _
    unfold register_panic
    rw [hmsg, hfile]
    exact ⟨_, rfl, _, rfl, rfl⟩

/-- C10: when an `instance.call("fails")` returns success at the engine
level, the driver's result handling panics the host with the fixed message
and never takes the continue path. -/
theorem fails_success_panics_host : ∀ c : Option PanicInfo,
    handleFailsResult .ok c =
      .hostPanic "calling 'fails' should have returned an error" ∧
    ∀ cap, handleFailsResult .ok c ≠ .keepGoing cap := by
  intro c
  exact ⟨rfl, fun _ h => LoopOutcome.noConfusion h⟩
